import Mathlib

/-!
Shallow embedding of the Slint linuxkms calloop backend
(src/internal/backends/linuxkms/calloop_backend.rs) and proofs about it.

The backend composes: a libseat session (activation handshake and device
opening), a thread-safe event-loop proxy (termination flag + job channel),
and a calloop-driven dispatch loop.  External collaborators (libseat, the
renderer factory, the window adapter, calloop's reactor) are modelled as
environment parameters; the control flow, state updates and constants are
translated directly from the Rust source.
-/

namespace CalloopBackend

/-- Error type `i_slint_core::api::EventLoopError`; the backend only ever
produces the `EventLoopTerminated` variant. -/
inductive EventLoopError
  | EventLoopTerminated
deriving DecidableEq, Repr

/-- Atomic memory orderings, as named in `std::sync::atomic::Ordering`. -/
inductive AtomicOrdering
  | Relaxed
  | Acquire
  | Release
  | AcqRel
  | SeqCst
deriving DecidableEq, Repr

/-- Ordering used by `Proxy::quit_event_loop`'s store to `quit_loop`
(source line 47: `store(true, Ordering::Release)`). -/
def quitStoreOrdering : AtomicOrdering := .Release

/-- Ordering used by the run loop's check of `quit_loop`
(source line 210: `load(Ordering::Acquire)`). -/
def quitCheckLoadOrdering : AtomicOrdering := .Acquire

/-- Events delivered by libseat to the seat callback. -/
inductive SeatEvent
  | Enable
  | Disable
deriving DecidableEq, Repr

/-- Outcome of running the seat callback on one event: either it completes
normally with a new value of the `seat_active` flag, or it aborts
(`unimplemented!` panics). -/
inductive CallbackResult
  | normal (seat_active : Bool)
  | panicked (msg : String)
deriving DecidableEq, Repr

/-- The seat callback registered in `new_with_renderer_by_name`
(source lines 109-116): `Enable` sets the shared `seat_active` flag to
true; `Disable` hits `unimplemented!("Seat deactivation is not implemented")`. -/
def seatCallback (_seat_active : Bool) : SeatEvent → CallbackResult
  | .Enable => .normal true
  | .Disable => .panicked "Seat deactivation is not implemented"

/-- Run the seat callback over a list of events delivered by one
`seat.dispatch` call, threading the `seat_active` flag, aborting on panic. -/
def processSeatEvents (seat_active : Bool) : List SeatEvent → CallbackResult
  | [] => .normal seat_active
  | e :: rest =>
    match seatCallback seat_active e with
    | .panicked m => .panicked m
    | .normal a => processSeatEvents a rest

/-- One `seat.dispatch(5000)` attempt as seen from the environment: either
libseat reports an error, or it delivers a (possibly empty) batch of events
before the timeout.  An empty batch means the call timed out and returned 0. -/
inductive DispatchAttempt
  | err (msg : String)
  | ok (events : List SeatEvent)
deriving DecidableEq, Repr

/-- Result of the activation retry loop. -/
inductive ActivationResult
  | activated
  | error (msg : String)
  | panicked (msg : String)
deriving DecidableEq, Repr

/-- Timeout in milliseconds passed to each `seat.dispatch` call while
waiting for activation (source line 123). -/
def seatDispatchTimeoutMs : Nat := 5000

/-- The activation retry loop of `new_with_renderer_by_name`
(source lines 122-128): while `seat_active` is false, dispatch with a
5000 ms timeout; a libseat error is fatal, a dispatch returning 0 events
yields the activation-timeout error, otherwise the delivered events run
through the seat callback and the loop re-checks the flag.  An exhausted
attempt list models an environment that delivers nothing more, so the next
dispatch times out with 0 events. -/
def seatActivationLoop : Bool → List DispatchAttempt → ActivationResult
  | true, _ => .activated
  | false, [] => .error "Timeout while waiting to activate session"
  | false, .err e :: _ => .error ("Error waiting for seat activation: " ++ e)
  | false, .ok events :: rest =>
    if events.length = 0 then .error "Timeout while waiting to activate session"
    else
      match processSeatEvents false events with
      | .panicked m => .panicked m
      | .normal a => seatActivationLoop a rest

/-- The renderer factories that the name match in
`new_with_renderer_by_name` (source lines 85-100) can select. -/
inductive RendererFactory
  | skiaVulkan
  | skiaOpenGL
  | femtovg
  | trySkiaThenFemtovg
deriving DecidableEq, Repr

/-- The renderer-name match of `new_with_renderer_by_name` (source lines
85-100).  The three named arms exist only when the corresponding cargo
feature (`fv`, `fo`, `ff`) is compiled in; a `Some` name matching no
enabled arm falls to the catch-all arm, which prints a warning (the
returned Bool) and falls back to `try_skia_then_femtovg`. -/
def select_renderer_factory (fv fo ff : Bool) (name : Option String) :
    RendererFactory × Bool :=
  match name with
  | some s =>
    if fv && s == "skia-vulkan" then (.skiaVulkan, false)
    else if fo && s == "skia-opengl" then (.skiaOpenGL, false)
    else if ff && s == "femtovg" then (.femtovg, false)
    else (.trySkiaThenFemtovg, true)
  | none => (.trySkiaThenFemtovg, false)

/-- A renderer name is recognized when a compiled-in arm matches it. -/
def recognizedName (fv fo ff : Bool) (s : String) : Bool :=
  (fv && s == "skia-vulkan") || (fo && s == "skia-opengl") || (ff && s == "femtovg")

/-- Combined state of the Backend struct and its shared Proxy:
`loop_signal` is `some ()` once a calloop `LoopSignal` has been stored,
`quit_loop` is the shared atomic termination flag, `wakePending` records a
`signal.wakeup()` not yet consumed by `dispatch`, `jobQueue` is the job
channel's in-flight queue (jobs are identified by `Nat`), `receiverAlive`
is false once the channel's receiving end has been dropped,
`receiverInBackend` mirrors whether `user_event_receiver` still holds
`Some(channel)`, `window` is the cached adapter (identified by `Nat`),
`seat_active` the activation flag, `rendererFactory` the selected factory. -/
structure SystemState where
  loop_signal : Option Unit
  quit_loop : Bool
  wakePending : Bool
  jobQueue : List Nat
  receiverAlive : Bool
  receiverInBackend : Bool
  window : Option Nat
  seat_active : Bool
  rendererFactory : RendererFactory
deriving DecidableEq, Repr

/-- Result of Backend construction. -/
inductive ConstructionResult
  | ok (s : SystemState)
  | error (msg : String)
  | panicked (msg : String)
deriving DecidableEq, Repr

/-- Whether construction succeeded. -/
def constructionIsOk : ConstructionResult → Bool
  | .ok _ => true
  | _ => false

/-- `Backend::new_with_renderer_by_name` (source lines 82-137): create the
job channel, select the renderer factory (possibly warning), open the seat
session with the callback, run the activation retry loop, and assemble the
Backend.  `seatOpenResult` models `libseat::Seat::open`, `attempts` the
dispatch environment.  The second component reports whether the
unrecognized-name warning was printed. -/
def new_with_renderer_by_name (fv fo ff : Bool) (renderer_name : Option String)
    (seatOpenResult : Except String Unit) (attempts : List DispatchAttempt) :
    ConstructionResult × Bool :=
  let fw := select_renderer_factory fv fo ff renderer_name
  match seatOpenResult with
  | .error e => (.error ("Error opening session with libseat: " ++ e), fw.2)
  | .ok _ =>
    match seatActivationLoop false attempts with
    | .activated =>
      (.ok { loop_signal := none, quit_loop := false, wakePending := false,
             jobQueue := [], receiverAlive := true, receiverInBackend := true,
             window := none, seat_active := true, rendererFactory := fw.1 }, fw.2)
    | .error m => (.error m, fw.2)
    | .panicked m => (.panicked m, fw.2)

/-- The freshly constructed backend state (what `new_with_renderer_by_name`
returns on success, with the default factory). -/
def initialBackendState : SystemState :=
  { loop_signal := none, quit_loop := false, wakePending := false,
    jobQueue := [], receiverAlive := true, receiverInBackend := true,
    window := none, seat_active := true, rendererFactory := .trySkiaThenFemtovg }

/-- `Proxy::quit_event_loop` (source lines 42-52): with no loop signal
registered, fail with `EventLoopTerminated`; otherwise store true into
`quit_loop` (Release) and wake the reactor.  The function is total: it
never blocks. -/
def quit_event_loop (s : SystemState) : SystemState × Except EventLoopError Unit :=
  match s.loop_signal with
  | none => (s, .error .EventLoopTerminated)
  | some _ => ({ s with quit_loop := true, wakePending := true }, .ok ())

/-- `Proxy::invoke_from_event_loop` (source lines 54-62): send the job on
the channel; `send` fails exactly when the receiving end has been dropped,
which is mapped to `EventLoopTerminated`. -/
def invoke_from_event_loop (s : SystemState) (job : Nat) :
    SystemState × Except EventLoopError Unit :=
  if s.receiverAlive then
    ({ s with jobQueue := s.jobQueue ++ [job] }, .ok ())
  else
    (s, .error .EventLoopTerminated)

/-- Submit a list of jobs through `invoke_from_event_loop`, in order. -/
def submitAll (s : SystemState) (jobs : List Nat) : SystemState :=
  jobs.foldl (fun st j => (invoke_from_event_loop st j).1) s

/-- The wait-timeout computation of `run_event_loop` (source lines
215-219), in milliseconds: with active animations the timeout is a fixed
`Duration::from_millis(16)`; otherwise it is
`duration_until_next_timer_update()` (`none` meaning no timeout). -/
def next_timeout (hasActiveAnimations : Bool)
    (durationUntilNextTimerUpdate : Option Nat) : Option Nat :=
  if hasActiveAnimations then some 16 else durationUntilNextTimerUpdate

/-- Model of the reactor's blocking `dispatch(timeout)` call (calloop, as
specified for the external reactor collaborator): given the timeout and the
time at which the first registered source fires (if any), the time at which
dispatch returns, `none` meaning it blocks forever. -/
def dispatchReturnsAt (timeout : Option Nat) (sourceFireTime : Option Nat) :
    Option Nat :=
  match timeout, sourceFireTime with
  | none, none => none
  | none, some t => some t
  | some T, none => some T
  | some T, some t => some (min t T)

/-- Observable steps of one run of the event loop. -/
inductive LoopEvent
  | timersUpdated
  | rendered (adapter : Nat)
  | dispatched (timeout : Option Nat)
  | jobExecuted (job : Nat)
deriving DecidableEq, Repr

/-- Environment of a single loop iteration: what the adapter and the
reactor report during that iteration, whether a `quit_event_loop` call from
another thread lands during the dispatch phase, and whether the two
fallible calls of the iteration succeed. -/
structure IterEnv where
  hasActiveAnimations : Bool
  durationUntilNextTimerUpdate : Option Nat
  renderOk : Bool
  dispatchOk : Bool
  quitDuringDispatch : Bool
deriving DecidableEq, Repr

/-- One iteration of the `while` loop of `run_event_loop` (source lines
210-224): update timers and animations, render if needed (propagating a
render error), compute the timeout, and dispatch.  Dispatch drains the job
channel, running every queued job in FIFO order through the channel
source's callback (source lines 196-199); a concurrent `quit_event_loop`
during the dispatch phase runs the real proxy operation.  Returns the new
state, the iteration's trace, and an error if one occurred. -/
def loopIter (adapter : Nat) (s : SystemState) (env : IterEnv) :
    SystemState × List LoopEvent × Option String :=
  if env.renderOk then
    let timeout := next_timeout env.hasActiveAnimations env.durationUntilNextTimerUpdate
    if env.dispatchOk then
      let jobs := s.jobQueue
      let s1 := { s with jobQueue := ([] : List Nat), wakePending := false }
      let s2 := if env.quitDuringDispatch then (quit_event_loop s1).1 else s1
      (s2, [.timersUpdated, .rendered adapter, .dispatched timeout] ++
            jobs.map .jobExecuted, none)
    else
      (s, [.timersUpdated, .rendered adapter, .dispatched timeout],
        some "Error dispatch events")
  else
    (s, [.timersUpdated], some "render error")

/-- Outcome of `run_event_loop`. -/
inductive RunOutcome
  | ok
  | err (msg : String)
  | panicked (msg : String)
  | fuelOut
deriving DecidableEq, Repr

/-- The `while !quit_loop.load(Acquire)` loop (source lines 210-224),
driven by a finite schedule of per-iteration environments.  The flag is
checked at the top of every iteration; an exhausted schedule means the
model ran out of environment (`fuelOut`), not that the program stopped. -/
def loopRun (adapter : Nat) : SystemState → List IterEnv →
    SystemState × List LoopEvent × RunOutcome
  | s, sched =>
    if s.quit_loop then (s, [], .ok)
    else
      match sched with
      | [] => (s, [], .fuelOut)
      | env :: rest =>
        match loopIter adapter s env with
        | (s1, tr, some msg) => (s1, tr, .err msg)
        | (s1, tr, none) =>
          let r := loopRun adapter s1 rest
          (r.1, tr ++ r.2.1, r.2.2)

/-- Result of one `run_event_loop` call. -/
structure RunResult where
  state : SystemState
  trace : List LoopEvent
  outcome : RunOutcome
deriving DecidableEq, Repr

/-- `Backend::run_event_loop` (source lines 174-227): unwrap the cached
window adapter (panic when absent), create the reactor and store its
signal into the proxy, take the job-channel receiver out of the Backend
(failing with the re-entrancy error when it was already consumed), insert
it as a source, reset the termination flag, and run the dispatch loop.
When the function returns (other than by running out of model fuel), the
reactor and with it the channel receiver are dropped. -/
def run_event_loop (s : SystemState) (sched : List IterEnv) : RunResult :=
  match s.window with
  | none => ⟨s, [], .panicked "called Option.unwrap on a None value"⟩
  | some adapter =>
    if s.receiverInBackend then
      match loopRun adapter
          { s with loop_signal := some (), receiverInBackend := false,
                   quit_loop := false } sched with
      | (s3, tr, .ok) => ⟨{ s3 with receiverAlive := false }, tr, .ok⟩
      | (s3, tr, .err m) => ⟨{ s3 with receiverAlive := false }, tr, .err m⟩
      | (s3, tr, .panicked m) => ⟨{ s3 with receiverAlive := false }, tr, .panicked m⟩
      | (s3, tr, .fuelOut) => ⟨s3, tr, .fuelOut⟩
    else
      ⟨{ s with loop_signal := some () }, [],
        .err "Re-entering the linuxkms event loop is currently not supported"⟩

/-- The jobs executed in a trace, in execution order. -/
def executedJobs (tr : List LoopEvent) : List Nat :=
  tr.filterMap fun e =>
    match e with
    | .jobExecuted j => some j
    | _ => none

/-- Number of loop iterations recorded in a trace (each iteration begins
with `update_timers_and_animations`). -/
def countIters (tr : List LoopEvent) : Nat :=
  tr.countP fun e =>
    match e with
    | .timersUpdated => true
    | _ => false

/-- `O_NONBLOCK` on Linux, octal 04000 = bit 11. -/
def oNONBLOCK : Nat := 2048

/-- Clearing the `O_NONBLOCK` bit from a flag word, as
`flags.remove(OFlag::O_NONBLOCK)` does (source line 159): bit 11 becomes 0,
all lower bits (`% 2048`) and all higher bits (`/ 4096`) are unchanged. -/
def clearONonblock (flags : Nat) : Nat :=
  flags / 4096 * 4096 + flags % oNONBLOCK

/-- A device descriptor as handed to the renderer: the raw fd plus the
fd-flag word in effect after the bridging code is done with it. -/
structure OpenedDevice where
  fd : Nat
  flags : Nat
deriving DecidableEq, Repr

/-- Environment of one device-opener invocation: what
`seat.open_device` returns (an fd or an error), what `fcntl(F_GETFL)`
returns (the current flag word or an error), and whether
`fcntl(F_SETFL)` succeeds. -/
structure OpenDeviceEnv where
  openResult : Except String Nat
  getflResult : Except String Nat
  setflResult : Except String Unit
deriving Repr

/-- The device-opener closure passed to the renderer factory in
`create_window_adapter` (source lines 147-166): open the device through
the seat, read the fd flags, clear `O_NONBLOCK`, write the flags back, and
wrap the fd as an owned descriptor.  Each failing step aborts with a
descriptive error. -/
def device_opener (env : OpenDeviceEnv) : Except String OpenedDevice :=
  match env.openResult with
  | .error e => .error ("Error opening device: " ++ e)
  | .ok fd =>
    match env.getflResult with
    | .error e => .error ("Error getting file descriptor flags: " ++ e)
    | .ok flags =>
      match env.setflResult with
      | .error e => .error ("Error making device fd non-blocking: " ++ e)
      | .ok _ => .ok { fd := fd, flags := clearONonblock flags }

/-- Environment of one `create_window_adapter` call: the device-opener
environment used when the renderer factory opens its device, whether the
factory succeeds beyond the opener, whether
`FullscreenWindowAdapter::new` succeeds, and the identity of the adapter
it would produce. -/
structure CreateEnv where
  deviceEnv : OpenDeviceEnv
  factoryOk : Bool
  adapterNewOk : Bool
  adapterId : Nat
deriving Repr

/-- `Platform::create_window_adapter` (source lines 141-172): run the
renderer factory with the device opener (a factory failure, including a
propagated opener failure, aborts), build the window adapter (failure
aborts), then overwrite the cached `window` slot with the new adapter and
return it.  On any error the state is left unchanged. -/
def create_window_adapter (s : SystemState) (env : CreateEnv) :
    SystemState × Except String Nat :=
  match device_opener env.deviceEnv with
  | .error e => (s, .error e)
  | .ok _ =>
    if env.factoryOk then
      if env.adapterNewOk then
        ({ s with window := some env.adapterId }, .ok env.adapterId)
      else
        (s, .error "error creating window adapter")
    else
      (s, .error "error creating renderer")

/-- Whether a `CreateEnv` lets `create_window_adapter` succeed. -/
def createEnvOk (env : CreateEnv) : Bool :=
  (match device_opener env.deviceEnv with
   | .ok _ => true
   | .error _ => false) && env.factoryOk && env.adapterNewOk

/-! ### Helper lemmas -/

theorem loopIter_preserves (adapter : Nat) (s : SystemState) (env : IterEnv) :
    ((loopIter adapter s env).1).receiverInBackend = s.receiverInBackend ∧
    ((loopIter adapter s env).1).receiverAlive = s.receiverAlive ∧
    ((loopIter adapter s env).1).window = s.window ∧
    ((loopIter adapter s env).1).loop_signal = s.loop_signal := by
  unfold loopIter quit_event_loop
  by_cases hr : env.renderOk <;> by_cases hd : env.dispatchOk <;>
    by_cases hq : env.quitDuringDispatch <;>
      cases hs : s.loop_signal <;> simp [hr, hd, hq, hs]

theorem loopRun_preserves (adapter : Nat) (s : SystemState) (sched : List IterEnv) :
    ((loopRun adapter s sched).1).receiverInBackend = s.receiverInBackend ∧
    ((loopRun adapter s sched).1).receiverAlive = s.receiverAlive ∧
    ((loopRun adapter s sched).1).window = s.window ∧
    ((loopRun adapter s sched).1).loop_signal = s.loop_signal := by
  induction sched generalizing s with
  | nil =>
    rw [loopRun]
    split <;> simp
  | cons env rest ih =>
    rw [loopRun]
    by_cases hq : s.quit_loop
    · simp [hq]
    · simp only [hq, if_false, Bool.false_eq_true]
      rcases h : loopIter adapter s env with ⟨s1, tr, err⟩
      have hp := loopIter_preserves adapter s env
      rw [h] at hp
      cases err with
      | some msg =>
        simp only [h]
        simpa using hp
      | none =>
        simp only [h]
        have hrest := ih s1
        refine ⟨?_, ?_, ?_, ?_⟩
        · rw [hrest.1]; exact hp.1
        · rw [hrest.2.1]; exact hp.2.1
        · rw [hrest.2.2.1]; exact hp.2.2.1
        · rw [hrest.2.2.2]; exact hp.2.2.2

theorem executedJobs_append (l1 l2 : List LoopEvent) :
    executedJobs (l1 ++ l2) = executedJobs l1 ++ executedJobs l2 := by
  simp [executedJobs]

theorem executedJobs_map (jobs : List Nat) :
    executedJobs (jobs.map .jobExecuted) = jobs := by
  induction jobs with
  | nil => simp [executedJobs]
  | cons j rest ih => simpa [executedJobs] using ih

theorem countIters_append (l1 l2 : List LoopEvent) :
    countIters (l1 ++ l2) = countIters l1 + countIters l2 := by
  simp [countIters]

theorem countIters_map_jobs (jobs : List Nat) :
    countIters (jobs.map .jobExecuted) = 0 := by
  induction jobs with
  | nil => simp [countIters]
  | cons j rest ih => simp [countIters, List.countP_cons, ih]

theorem loopIter_nil_jobs (adapter : Nat) (s : SystemState) (env : IterEnv)
    (h : s.jobQueue = []) :
    ((loopIter adapter s env).1).jobQueue = [] ∧
    executedJobs (loopIter adapter s env).2.1 = [] := by
  unfold loopIter quit_event_loop
  by_cases hr : env.renderOk <;> by_cases hd : env.dispatchOk <;>
    by_cases hq : env.quitDuringDispatch <;>
      cases hs : s.loop_signal <;> simp [hr, hd, hq, hs, h, executedJobs]

theorem loopRun_executedJobs_nil (adapter : Nat) (s : SystemState)
    (sched : List IterEnv) (h : s.jobQueue = []) :
    executedJobs (loopRun adapter s sched).2.1 = [] := by
  induction sched generalizing s with
  | nil =>
    rw [loopRun]
    split <;> simp [executedJobs]
  | cons env rest ih =>
    rw [loopRun]
    by_cases hq : s.quit_loop
    · simp [hq, executedJobs]
    · simp only [hq, if_false, Bool.false_eq_true]
      rcases hI : loopIter adapter s env with ⟨s1, tr, err⟩
      have hn := loopIter_nil_jobs adapter s env h
      rw [hI] at hn
      cases err with
      | some msg =>
        simp only [hI]
        exact hn.2
      | none =>
        simp only [hI]
        rw [executedJobs_append, hn.2, ih s1 hn.1]
        rfl

theorem loopIter_rendered (adapter : Nat) (s : SystemState) (env : IterEnv)
    (x : Nat) (h : LoopEvent.rendered x ∈ (loopIter adapter s env).2.1) :
    x = adapter := by
  revert h
  unfold loopIter quit_event_loop
  by_cases hr : env.renderOk <;> by_cases hd : env.dispatchOk <;>
    by_cases hq : env.quitDuringDispatch <;>
      cases hs : s.loop_signal <;> simp [hr, hd, hq, hs, eq_comm]

theorem loopRun_rendered (adapter : Nat) (s : SystemState)
    (sched : List IterEnv) (x : Nat)
    (h : LoopEvent.rendered x ∈ (loopRun adapter s sched).2.1) :
    x = adapter := by
  induction sched generalizing s with
  | nil =>
    rw [loopRun] at h
    revert h
    split <;> simp
  | cons env rest ih =>
    rw [loopRun] at h
    by_cases hq : s.quit_loop
    · simp [hq] at h
    · simp only [hq, if_false, Bool.false_eq_true] at h
      rcases hI : loopIter adapter s env with ⟨s1, tr, err⟩
      rw [hI] at h
      cases err with
      | some msg =>
        exact loopIter_rendered adapter s env x (by rw [hI]; exact h)
      | none =>
        simp only [List.mem_append] at h
        rcases h with h | h
        · exact loopIter_rendered adapter s env x (by rw [hI]; exact h)
        · exact ih s1 h

theorem submitAll_spec (s : SystemState) (js : List Nat)
    (h : s.receiverAlive = true) :
    submitAll s js = { s with jobQueue := s.jobQueue ++ js } := by
  induction js generalizing s with
  | nil => simp [submitAll]
  | cons j rest ih =>
    show submitAll ((invoke_from_event_loop s j).1) rest = _
    have h1 : (invoke_from_event_loop s j).1 =
        { s with jobQueue := s.jobQueue ++ [j] } := by
      rw [invoke_from_event_loop]
      simp [h]
    rw [h1, ih { s with jobQueue := s.jobQueue ++ [j] } h]
    simp

theorem processSeatEvents_stays_active (evs : List SeatEvent)
    (h : SeatEvent.Disable ∉ evs) :
    processSeatEvents true evs = .normal true := by
  induction evs with
  | nil => rfl
  | cons e rest ih =>
    cases e with
    | Enable =>
      rw [processSeatEvents]
      exact ih fun hm => h (List.mem_cons_of_mem _ hm)
    | Disable => exact absurd (List.mem_cons_self _ _) h

theorem processSeatEvents_enable (a : Bool) (evs : List SeatEvent)
    (h1 : SeatEvent.Enable ∈ evs) (h2 : SeatEvent.Disable ∉ evs) :
    processSeatEvents a evs = .normal true := by
  cases evs with
  | nil => cases h1
  | cons e rest =>
    cases e with
    | Enable =>
      rw [processSeatEvents]
      exact processSeatEvents_stays_active rest
        fun hm => h2 (List.mem_cons_of_mem _ hm)
    | Disable => exact absurd (List.mem_cons_self _ _) h2

theorem run_event_loop_eq (s : SystemState) (adapter : Nat)
    (sched : List IterEnv) (hw : s.window = some adapter)
    (hri : s.receiverInBackend = true) :
    run_event_loop s sched =
      match loopRun adapter
          { s with loop_signal := some (), receiverInBackend := false,
                   quit_loop := false } sched with
      | (s3, tr, .ok) => ⟨{ s3 with receiverAlive := false }, tr, .ok⟩
      | (s3, tr, .err m) => ⟨{ s3 with receiverAlive := false }, tr, .err m⟩
      | (s3, tr, .panicked m) => ⟨{ s3 with receiverAlive := false }, tr, .panicked m⟩
      | (s3, tr, .fuelOut) => ⟨s3, tr, .fuelOut⟩ := by
  rw [run_event_loop]
  rw [hw, hri]
  rfl

theorem run_event_loop_reentry (s : SystemState) (adapter : Nat)
    (sched : List IterEnv) (hw : s.window = some adapter)
    (hri : s.receiverInBackend = false) :
    run_event_loop s sched =
      ⟨{ s with loop_signal := some () }, [],
        .err "Re-entering the linuxkms event loop is currently not supported"⟩ := by
  rw [run_event_loop]
  rw [hw, hri]
  rfl

theorem run_event_loop_ok_state (s : SystemState) (adapter : Nat)
    (sched : List IterEnv) (hw : s.window = some adapter)
    (h : (run_event_loop s sched).outcome = RunOutcome.ok) :
    (run_event_loop s sched).state.receiverInBackend = false ∧
    (run_event_loop s sched).state.receiverAlive = false ∧
    (run_event_loop s sched).state.window = s.window ∧
    (run_event_loop s sched).state.loop_signal = some () := by
  by_cases hri : s.receiverInBackend = true
  · rw [run_event_loop_eq s adapter sched hw hri] at h ⊢
    rcases hL : loopRun adapter
        { s with loop_signal := some (), receiverInBackend := false,
                 quit_loop := false } sched with ⟨s3, tr, out⟩
    have hp := loopRun_preserves adapter
        { s with loop_signal := some (), receiverInBackend := false,
                 quit_loop := false } sched
    rw [hL] at hp h
    cases out with
    | ok => exact ⟨hp.1, rfl, hp.2.2.1, hp.2.2.2⟩
    | err m => exact RunOutcome.noConfusion h
    | panicked m => exact RunOutcome.noConfusion h
    | fuelOut => exact RunOutcome.noConfusion h
  · rw [run_event_loop_reentry s adapter sched hw
      (Bool.not_eq_true _ ▸ hri)] at h
    exact RunOutcome.noConfusion h

theorem loopIter_ok (a : Nat) (s : SystemState) (env : IterEnv)
    (hR : env.renderOk = true) (hD : env.dispatchOk = true) :
    loopIter a s env =
      (if env.quitDuringDispatch then
          (quit_event_loop { s with jobQueue := [], wakePending := false }).1
        else { s with jobQueue := [], wakePending := false },
       [LoopEvent.timersUpdated, LoopEvent.rendered a,
         LoopEvent.dispatched (next_timeout env.hasActiveAnimations
           env.durationUntilNextTimerUpdate)] ++
         s.jobQueue.map LoopEvent.jobExecuted,
       none) := by
  rw [loopIter, hR, hD]
  rfl

theorem loopRun_quit (a : Nat) (s : SystemState) (sched : List IterEnv)
    (hq : s.quit_loop = true) : loopRun a s sched = (s, [], .ok) := by
  rw [loopRun.eq_def]
  dsimp only
  rw [hq]
  rfl

theorem loopRun_cons (a : Nat) (s : SystemState) (env : IterEnv)
    (rest : List IterEnv) (hq : s.quit_loop = false) :
    loopRun a s (env :: rest) =
      match loopIter a s env with
      | (s1, tr, some msg) => (s1, tr, .err msg)
      | (s1, tr, none) =>
        ((loopRun a s1 rest).1, tr ++ (loopRun a s1 rest).2.1,
          (loopRun a s1 rest).2.2) := by
  rw [loopRun, hq]
  rfl

theorem create_window_adapter_ok (s : SystemState) (env : CreateEnv)
    (h : createEnvOk env = true) :
    create_window_adapter s env =
      ({ s with window := some env.adapterId }, .ok env.adapterId) := by
  rw [createEnvOk] at h
  rcases ho : device_opener env.deviceEnv with e | d <;> rw [ho] at h
  · simp at h
  · simp only [Bool.and_eq_true] at h
    rw [create_window_adapter, ho, if_pos h.1.2, if_pos h.2]

theorem run_event_loop_rendered (s : SystemState) (adapter : Nat)
    (sched : List IterEnv) (hw : s.window = some adapter) (x : Nat)
    (h : LoopEvent.rendered x ∈ (run_event_loop s sched).trace) :
    x = adapter := by
  by_cases hri : s.receiverInBackend = true
  · rw [run_event_loop_eq s adapter sched hw hri] at h
    rcases hL : loopRun adapter
        { s with loop_signal := some (), receiverInBackend := false,
                 quit_loop := false } sched with ⟨s3, tr, out⟩
    rw [hL] at h
    cases out <;>
      exact loopRun_rendered adapter
        { s with loop_signal := some (), receiverInBackend := false,
                 quit_loop := false } sched x (by rw [hL]; exact h)
  · rw [run_event_loop_reentry s adapter sched hw
      (Bool.not_eq_true _ ▸ hri)] at h
    exact absurd h (List.not_mem_nil _)

theorem run_trace_first_iter (s : SystemState) (a : Nat) (env : IterEnv)
    (rest : List IterEnv) (hw : s.window = some a)
    (hri : s.receiverInBackend = true)
    (hR : env.renderOk = true) (hD : env.dispatchOk = true) :
    ∃ ttail, (run_event_loop s (env :: rest)).trace =
      [LoopEvent.timersUpdated, LoopEvent.rendered a,
        LoopEvent.dispatched (next_timeout env.hasActiveAnimations
          env.durationUntilNextTimerUpdate)] ++
        s.jobQueue.map LoopEvent.jobExecuted ++ ttail ∧
      executedJobs ttail = [] := by
  rw [run_event_loop_eq s a (env :: rest) hw hri]
  rw [loopRun_cons a _ env rest rfl]
  rw [loopIter_ok a _ env hR hD]
  by_cases hqd : env.quitDuringDispatch = true
  · rw [hqd, if_pos rfl]
    rw [quit_event_loop]
    dsimp only
    rcases hL : loopRun a
        { loop_signal := some (), quit_loop := true, wakePending := true,
          jobQueue := [], receiverAlive := s.receiverAlive,
          receiverInBackend := false, window := s.window,
          seat_active := s.seat_active,
          rendererFactory := s.rendererFactory } rest with ⟨s4, tr4, out4⟩
    have htr : executedJobs tr4 = [] := by
      have hnj := loopRun_executedJobs_nil a
        { loop_signal := some (), quit_loop := true, wakePending := true,
          jobQueue := [], receiverAlive := s.receiverAlive,
          receiverInBackend := false, window := s.window,
          seat_active := s.seat_active,
          rendererFactory := s.rendererFactory } rest rfl
      rw [hL] at hnj
      exact hnj
    cases out4 <;> exact ⟨tr4, by simp, htr⟩
  · rw [if_neg hqd]
    dsimp only
    rcases hL : loopRun a
        { loop_signal := some (), quit_loop := false, wakePending := false,
          jobQueue := [], receiverAlive := s.receiverAlive,
          receiverInBackend := false, window := s.window,
          seat_active := s.seat_active,
          rendererFactory := s.rendererFactory } rest with ⟨s4, tr4, out4⟩
    have htr : executedJobs tr4 = [] := by
      have hnj := loopRun_executedJobs_nil a
        { loop_signal := some (), quit_loop := false, wakePending := false,
          jobQueue := [], receiverAlive := s.receiverAlive,
          receiverInBackend := false, window := s.window,
          seat_active := s.seat_active,
          rendererFactory := s.rendererFactory } rest rfl
      rw [hL] at hnj
      exact hnj
    cases out4 <;> exact ⟨tr4, by simp, htr⟩

theorem countIters_iter_trace (a : Nat) (t0 : Option Nat) (l : List LoopEvent) :
    countIters ([LoopEvent.timersUpdated, LoopEvent.rendered a,
      LoopEvent.dispatched t0] ++ l) = 1 + countIters l := by
  simp [countIters, List.countP_cons, List.countP_append, Nat.add_comm]

theorem loopRun_quit_within_one (a : Nat) (pre : List IterEnv)
    (s : SystemState) (env : IterEnv) (rest : List IterEnv)
    (hq : s.quit_loop = false) (hsig : s.loop_signal = some ())
    (hpre : ∀ e ∈ pre, e.renderOk = true ∧ e.dispatchOk = true ∧
      e.quitDuringDispatch = false)
    (hR : env.renderOk = true) (hD : env.dispatchOk = true)
    (hQd : env.quitDuringDispatch = true) :
    (loopRun a s (pre ++ env :: rest)).2.2 = RunOutcome.ok ∧
    countIters (loopRun a s (pre ++ env :: rest)).2.1 = pre.length + 1 := by
  induction pre generalizing s with
  | nil =>
    rw [List.nil_append, loopRun_cons a s env rest hq,
      loopIter_ok a s env hR hD, hQd, if_pos rfl, quit_event_loop]
    dsimp only
    rw [hsig]
    dsimp only
    rw [loopRun_quit a
      { loop_signal := some (), quit_loop := true, wakePending := true,
        jobQueue := [], receiverAlive := s.receiverAlive,
        receiverInBackend := s.receiverInBackend, window := s.window,
        seat_active := s.seat_active,
        rendererFactory := s.rendererFactory } rest rfl]
    refine ⟨rfl, ?_⟩
    rw [List.append_assoc, countIters_iter_trace]
    rw [countIters_append, countIters_map_jobs]
    rfl
  | cons p pre' ih =>
    have hp := hpre p (List.mem_cons_self _ _)
    rw [List.cons_append, loopRun_cons a s p _ hq,
      loopIter_ok a s p hp.1 hp.2.1, hp.2.2]
    rw [if_neg (by simp)]
    dsimp only
    have ihh := ih
      { s with jobQueue := [], wakePending := false } hq hsig
      (fun e he => hpre e (List.mem_cons_of_mem _ he))
    refine ⟨ihh.1, ?_⟩
    rw [List.append_assoc, countIters_iter_trace, countIters_append,
      countIters_map_jobs, ihh.2]
    simp [List.length_cons]
    omega

/-! ### Claim theorems -/

/-- C9: if the session arbiter delivers a disable event, the registered
seat callback hard-aborts through the `unimplemented!` branch rather than
silently continuing or treating it as a graceful deactivation; the enable
branch is the only event that completes normally (and it sets the active
flag). -/
theorem seat_disable_hard_aborts (a : Bool) :
    seatCallback a SeatEvent.Disable =
      CallbackResult.panicked "Seat deactivation is not implemented" ∧
    seatCallback a SeatEvent.Enable = CallbackResult.normal true ∧
    ∀ e : SeatEvent,
      (∃ b, seatCallback a e = CallbackResult.normal b) ↔ e = SeatEvent.Enable := by
  refine ⟨rfl, rfl, ?_⟩
  intro e
  cases e <;> simp [seatCallback]

/-- C2: on every iteration, with active animations the computed wait
timeout is exactly 16 ms (hence at most 16 ms) regardless of the adapter's
timer deadline; with no active animations it is the adapter's
duration-until-next-timer value; and when that is `none` the dispatch call
blocks until a registered source fires (forever when none does).  The
final conjunct ties the computation into the loop iteration: the dispatch
phase uses exactly this timeout. -/
theorem next_timeout_animation_bound (has : Bool) (dur : Option Nat) :
    (has = true → next_timeout has dur = some 16 ∧
      ∀ T, next_timeout has dur = some T → T ≤ 16) ∧
    (has = false → next_timeout has dur = dur) ∧
    dispatchReturnsAt none none = none ∧
    (∀ t, dispatchReturnsAt none (some t) = some t) ∧
    (∀ (adapter : Nat) (s : SystemState) (env : IterEnv),
      env.renderOk = true → env.dispatchOk = true →
      LoopEvent.dispatched (next_timeout env.hasActiveAnimations
        env.durationUntilNextTimerUpdate) ∈ (loopIter adapter s env).2.1) := by
  refine ⟨?_, ?_, rfl, fun t => rfl, ?_⟩
  · intro h
    subst h
    refine ⟨rfl, ?_⟩
    intro T hT
    rw [next_timeout] at hT
    simp at hT
    omega
  · intro h
    subst h
    rfl
  · intro adapter s env hR hD
    unfold loopIter
    simp [hR, hD]

/-- C8: a renderer name that no compiled-in arm of the name match
recognizes selects the default `try_skia_then_femtovg` factory with a
warning, and whether Backend construction succeeds is independent of the
renderer name: an unrecognized name never causes construction to fail. -/
theorem unrecognized_renderer_falls_back (fv fo ff : Bool) (s : String)
    (h : recognizedName fv fo ff s = false) :
    select_renderer_factory fv fo ff (some s) =
      (RendererFactory.trySkiaThenFemtovg, true) ∧
    ∀ (seatOpen : Except String Unit) (attempts : List DispatchAttempt)
      (other : Option String),
      constructionIsOk
          (new_with_renderer_by_name fv fo ff (some s) seatOpen attempts).1 =
      constructionIsOk
          (new_with_renderer_by_name fv fo ff other seatOpen attempts).1 := by
  rw [recognizedName] at h
  simp only [Bool.or_eq_false_iff] at h
  obtain ⟨⟨h1, h2⟩, h3⟩ := h
  constructor
  · simp [select_renderer_factory, h1, h2, h3]
  · intro seatOpen attempts other
    cases seatOpen with
    | error e => rfl
    | ok u =>
      rcases hA : seatActivationLoop false attempts with _ | m | m <;>
        simp [new_with_renderer_by_name, hA, constructionIsOk]

/-- Witness for C8: with no renderer feature compiled in, even the name
"skia-vulkan" is unrecognized and falls back to the default factory with a
warning. -/
theorem unrecognized_renderer_falls_back_witness :
    select_renderer_factory false false false (some "skia-vulkan") =
      (RendererFactory.trySkiaThenFemtovg, true) :=
  (unrecognized_renderer_falls_back false false false "skia-vulkan" rfl).1

/-- C5: every descriptor the device opener hands to the renderer has the
`O_NONBLOCK` bit (bit 11) cleared while every other flag bit is preserved
(`% 2048` keeps bits 0-10, `/ 4096` keeps bits 12 and up), regardless of
the flag word the session returned; and when opening the device, reading
its flags or updating its flags fails, `create_window_adapter` returns an
error and leaves the state (in particular the cached adapter) unchanged. -/
theorem device_opener_clears_nonblock (s : SystemState) (env : CreateEnv) :
    (∀ f d, env.deviceEnv.getflResult = .ok f →
      device_opener env.deviceEnv = .ok d →
      d.flags % 2048 = f % 2048 ∧ d.flags / 4096 = f / 4096 ∧
      d.flags / 2048 % 2 = 0) ∧
    (∀ e, device_opener env.deviceEnv = .error e →
      (create_window_adapter s env).1 = s ∧
      ∃ msg, (create_window_adapter s env).2 = .error msg) := by
  constructor
  · intro f d hg hd
    rw [device_opener] at hd
    rcases ho : env.deviceEnv.openResult with e | fd <;> rw [ho] at hd
    · exact Except.noConfusion hd
    · rw [hg] at hd
      rcases hs : env.deviceEnv.setflResult with e | u <;> rw [hs] at hd
      · exact Except.noConfusion hd
      · have hdd : d = { fd := fd, flags := clearONonblock f } :=
          (Except.ok.injEq _ _ ▸ hd).symm
        subst hdd
        rw [clearONonblock, oNONBLOCK]
        dsimp only
        refine ⟨?_, ?_, ?_⟩ <;> omega
  · intro e he
    rw [create_window_adapter, he]
    exact ⟨rfl, e, rfl⟩

/-- Witness for C5: a device opened with flag word 2053 (`O_NONBLOCK` set
plus bits 0, 2 and 11) is handed over with flag word 5: bit 11 cleared,
bits 0 and 2 intact. -/
theorem device_opener_clears_nonblock_witness :
    (OpenedDevice.mk 7 5).flags % 2048 = 2053 % 2048 ∧
    (OpenedDevice.mk 7 5).flags / 4096 = 2053 / 4096 ∧
    (OpenedDevice.mk 7 5).flags / 2048 % 2 = 0 :=
  (device_opener_clears_nonblock initialBackendState
    { deviceEnv := { openResult := .ok 7, getflResult := .ok 2053,
                     setflResult := .ok () },
      factoryOk := true, adapterNewOk := true, adapterId := 1 }).1
    2053 (OpenedDevice.mk 7 5) rfl rfl

/-- C4: construction polls the seat with a 5000 ms (5 s) per-attempt
dispatch timeout until the enable callback has set the active flag: a
dispatch attempt delivering an enable event (and no disable) activates the
session and construction succeeds; a dispatch attempt yielding zero events
before activation aborts construction with the activation-timeout error,
so no backend value exists.  Every successfully constructed backend is
active and starts with no cached adapter and hence no opened device:
`open_device` is reachable only through `create_window_adapter` on a
constructed (hence activated) backend. -/
theorem seat_activation (fv fo ff : Bool) (name : Option String)
    (attempts : List DispatchAttempt) :
    seatDispatchTimeoutMs = 5000 ∧
    (∀ evs rest, SeatEvent.Enable ∈ evs → SeatEvent.Disable ∉ evs →
      seatActivationLoop false (DispatchAttempt.ok evs :: rest) =
        ActivationResult.activated) ∧
    (seatActivationLoop false attempts = .activated →
      constructionIsOk
        (new_with_renderer_by_name fv fo ff name (.ok ()) attempts).1 = true) ∧
    (∀ s w, new_with_renderer_by_name fv fo ff name (.ok ()) attempts = (.ok s, w) →
      s.seat_active = true ∧ s.window = none) ∧
    (∀ rest, seatActivationLoop false (DispatchAttempt.ok [] :: rest) =
      .error "Timeout while waiting to activate session") ∧
    (∀ rest, (new_with_renderer_by_name fv fo ff name (.ok ())
        (DispatchAttempt.ok [] :: rest)).1 =
      .error "Timeout while waiting to activate session") := by
  refine ⟨rfl, ?_, ?_, ?_, ?_, ?_⟩
  · intro evs rest h1 h2
    have hne : evs.length ≠ 0 := by
      cases evs with
      | nil => cases h1
      | cons e tail => simp
    rw [seatActivationLoop]
    rw [if_neg hne, processSeatEvents_enable false evs h1 h2]
    simp only [seatActivationLoop]
  · intro hA
    simp [new_with_renderer_by_name, hA, constructionIsOk]
  · intro s w h
    rcases hA : seatActivationLoop false attempts with _ | m | m <;>
      rw [new_with_renderer_by_name] at h <;>
        simp only [hA] at h
    · obtain ⟨hs, _⟩ := Prod.mk.injEq .. ▸ h
      have hs2 := ConstructionResult.ok.injEq .. ▸ hs
      rw [← hs2]
      exact ⟨rfl, rfl⟩
    · exact absurd (congrArg Prod.fst h) (by simp)
    · exact absurd (congrArg Prod.fst h) (by simp)
  · intro rest
    rw [seatActivationLoop]
    rfl
  · intro rest
    rw [new_with_renderer_by_name]
    rw [seatActivationLoop]
    rfl

/-- Witness for C4: one dispatch attempt delivering a single enable event
activates the session. -/
theorem seat_activation_witness :
    seatActivationLoop false [DispatchAttempt.ok [SeatEvent.Enable]] =
      ActivationResult.activated :=
  (seat_activation false false false none
      [DispatchAttempt.ok [SeatEvent.Enable]]).2.1
    [SeatEvent.Enable] [] (List.mem_singleton.mpr rfl) (by decide)

/-- C1 counterexample: on a freshly constructed backend — the event loop
has not started — `invoke_from_event_loop` succeeds (the job is queued for
the future loop) instead of returning the terminated-loop error, because
the channel receiver is still alive inside the Backend. -/
theorem proxy_pre_start_counterexample :
    (new_with_renderer_by_name false false false none (.ok ())
        [DispatchAttempt.ok [SeatEvent.Enable]]).1 =
      ConstructionResult.ok initialBackendState ∧
    (invoke_from_event_loop initialBackendState 0).2 = .ok () ∧
    (invoke_from_event_loop initialBackendState 0).2 ≠
      .error EventLoopError.EventLoopTerminated := by
  refine ⟨rfl, rfl, ?_⟩
  intro h
  exact Except.noConfusion h

/-- C1 (amended): `quit_event_loop` with no registered wake signal (the
loop never started) returns `EventLoopTerminated`, and
`invoke_from_event_loop` with the receiver dropped (the loop has stopped)
returns `EventLoopTerminated`; neither panics nor blocks (both are total
functions).  However, before the loop starts `invoke_from_event_loop`
succeeds and enqueues the job, and after the loop has stopped
`quit_event_loop` succeeds because the stale wake signal is never cleared.
A loop run that returns `Ok` leaves exactly that after-stop state:
receiver dropped, signal still registered. -/
theorem proxy_outside_loop (s : SystemState) (j : Nat) :
    (s.loop_signal = none →
      (quit_event_loop s).2 = .error EventLoopError.EventLoopTerminated) ∧
    (s.receiverAlive = false →
      (invoke_from_event_loop s j).2 = .error EventLoopError.EventLoopTerminated) ∧
    (s.receiverAlive = true → (invoke_from_event_loop s j).2 = .ok ()) ∧
    (∀ u, s.loop_signal = some u → (quit_event_loop s).2 = .ok ()) ∧
    (∀ adapter sched, s.window = some adapter →
      (run_event_loop s sched).outcome = RunOutcome.ok →
      (run_event_loop s sched).state.receiverAlive = false ∧
      (run_event_loop s sched).state.loop_signal = some ()) := by
  refine ⟨?_, ?_, ?_, ?_, ?_⟩
  · intro h
    rw [quit_event_loop, h]
  · intro h
    rw [invoke_from_event_loop, h]
    rfl
  · intro h
    rw [invoke_from_event_loop, h]
    rfl
  · intro u h
    rw [quit_event_loop, h]
  · intro adapter sched hw h
    have hs := run_event_loop_ok_state s adapter sched hw h
    exact ⟨hs.2.1, hs.2.2.2⟩

/-- Witness for C1 (amended): on the freshly constructed backend state,
`quit_event_loop` reports the terminated loop while `invoke_from_event_loop`
succeeds. -/
theorem proxy_outside_loop_witness :
    (quit_event_loop initialBackendState).2 =
      .error EventLoopError.EventLoopTerminated ∧
    (invoke_from_event_loop initialBackendState 3).2 = .ok () :=
  ⟨(proxy_outside_loop initialBackendState 3).1 rfl,
   (proxy_outside_loop initialBackendState 3).2.2.1 rfl⟩

/-- C3: every sequence of jobs submitted through `invoke_from_event_loop`
before `run_event_loop` is called is executed, once the loop starts,
exactly once and in submission order (the executed-jobs subtrace equals
the submitted list), and the jobs run during the event-dispatch phase of
the first iteration: right after its `dispatch` step, before any later
iteration, with no job event anywhere else in the trace. -/
theorem jobs_fifo (s0 : SystemState) (a : Nat) (js : List Nat)
    (env : IterEnv) (rest : List IterEnv)
    (hAlive : s0.receiverAlive = true) (hQ : s0.jobQueue = [])
    (hw : s0.window = some a) (hRecv : s0.receiverInBackend = true)
    (hR : env.renderOk = true) (hD : env.dispatchOk = true) :
    executedJobs (run_event_loop (submitAll s0 js) (env :: rest)).trace = js ∧
    ∃ ttail, (run_event_loop (submitAll s0 js) (env :: rest)).trace =
      [LoopEvent.timersUpdated, LoopEvent.rendered a,
        LoopEvent.dispatched (next_timeout env.hasActiveAnimations
          env.durationUntilNextTimerUpdate)] ++
        js.map LoopEvent.jobExecuted ++ ttail ∧
      executedJobs ttail = [] := by
  have hs1 : submitAll s0 js = { s0 with jobQueue := js } := by
    rw [submitAll_spec s0 js hAlive, hQ]
    simp
  rw [hs1]
  obtain ⟨ttail, htrace, hzero⟩ :=
    run_trace_first_iter { s0 with jobQueue := js } a env rest hw hRecv hR hD
  refine ⟨?_, ttail, ?_, hzero⟩
  · rw [htrace, executedJobs_append, executedJobs_append,
      executedJobs_map, hzero]
    simp [executedJobs]
  · rw [htrace]

/-- Witness for C3: two jobs 10 and 20 submitted before the loop starts
are executed exactly in that order during the first iteration. -/
theorem jobs_fifo_witness :
    executedJobs (run_event_loop
      (submitAll { initialBackendState with window := some 1 } [10, 20])
      [{ hasActiveAnimations := false, durationUntilNextTimerUpdate := none,
         renderOk := true, dispatchOk := true,
         quitDuringDispatch := true }]).trace = [10, 20] :=
  (jobs_fifo { initialBackendState with window := some 1 } 1 [10, 20]
    { hasActiveAnimations := false, durationUntilNextTimerUpdate := none,
      renderOk := true, dispatchOk := true, quitDuringDispatch := true }
    [] rfl rfl rfl rfl rfl rfl).1

/-- C6: a `quit_event_loop` call made after the loop has started (a wake
signal is registered) returns `Ok` immediately — it only stores the
termination flag (with the source's `Release` ordering, read back by the
loop's `Acquire` check) and wakes the reactor, never blocking the caller —
and the loop then exits at the very next flag check: if the call lands
during iteration `k`'s dispatch phase, exactly `k+1` iterations run and
`run_event_loop` returns `Ok`.  The wake makes dispatch return no later
than the current computed timeout (`min t T ≤ T`), bounding the exit
delay by one wake interval. -/
theorem quit_after_start (s : SystemState) (a : Nat) (pre : List IterEnv)
    (env : IterEnv) (rest : List IterEnv)
    (hw : s.window = some a) (hri : s.receiverInBackend = true)
    (hpre : ∀ e ∈ pre, e.renderOk = true ∧ e.dispatchOk = true ∧
      e.quitDuringDispatch = false)
    (hR : env.renderOk = true) (hD : env.dispatchOk = true)
    (hQd : env.quitDuringDispatch = true) :
    (run_event_loop s (pre ++ env :: rest)).outcome = RunOutcome.ok ∧
    countIters (run_event_loop s (pre ++ env :: rest)).trace = pre.length + 1 ∧
    (∀ s', s'.loop_signal = some () →
      quit_event_loop s' =
        ({ s' with quit_loop := true, wakePending := true }, .ok ())) ∧
    quitStoreOrdering = AtomicOrdering.Release ∧
    quitCheckLoadOrdering = AtomicOrdering.Acquire ∧
    (∀ T t : Nat, dispatchReturnsAt (some T) (some t) = some (min t T) ∧
      min t T ≤ T) := by
  rw [run_event_loop_eq s a (pre ++ env :: rest) hw hri]
  rcases hL : loopRun a
      { s with loop_signal := some (), receiverInBackend := false,
               quit_loop := false } (pre ++ env :: rest) with ⟨s3, tr, out⟩
  have hq := loopRun_quit_within_one a pre
    { s with loop_signal := some (), receiverInBackend := false,
             quit_loop := false } env rest rfl rfl hpre hR hD hQd
  rw [hL] at hq
  cases out with
  | ok =>
    refine ⟨rfl, hq.2, ?_, rfl, rfl, ?_⟩
    · intro s' hsig
      rw [quit_event_loop, hsig]
    · intro T t
      exact ⟨rfl, Nat.min_le_right t T⟩
  | err m => exact RunOutcome.noConfusion hq.1
  | panicked m => exact RunOutcome.noConfusion hq.1
  | fuelOut => exact RunOutcome.noConfusion hq.1

/-- Witness for C6: with the quit call landing during the first
iteration's dispatch, the loop exits after that one iteration with `Ok`. -/
theorem quit_after_start_witness :
    (run_event_loop { initialBackendState with window := some 1 }
      ([] ++ { hasActiveAnimations := false,
               durationUntilNextTimerUpdate := none,
               renderOk := true, dispatchOk := true,
               quitDuringDispatch := true } :: [])).outcome =
      RunOutcome.ok :=
  (quit_after_start { initialBackendState with window := some 1 } 1 []
    { hasActiveAnimations := false, durationUntilNextTimerUpdate := none,
      renderOk := true, dispatchOk := true, quitDuringDispatch := true }
    [] rfl rfl (fun e he => absurd he (List.not_mem_nil e))
    rfl rfl rfl).1

/-- C7: after a first `run_event_loop` call has returned `Ok`, a second
call on the same Backend fails with the re-entrancy error — the job
channel receiver was consumed by the first run — and executes no loop
iteration at all (its trace is empty): the loop is not silently
restarted. -/
theorem reentrant_run_fails (s : SystemState) (adapter : Nat)
    (sched1 sched2 : List IterEnv) (hw : s.window = some adapter)
    (h1 : (run_event_loop s sched1).outcome = RunOutcome.ok) :
    (run_event_loop (run_event_loop s sched1).state sched2).outcome =
      RunOutcome.err
        "Re-entering the linuxkms event loop is currently not supported" ∧
    (run_event_loop (run_event_loop s sched1).state sched2).trace = [] ∧
    (run_event_loop s sched1).state.receiverInBackend = false := by
  have hs := run_event_loop_ok_state s adapter sched1 hw h1
  have hw2 : (run_event_loop s sched1).state.window = some adapter := by
    rw [hs.2.2.1, hw]
  rw [run_event_loop_reentry _ adapter sched2 hw2 hs.1]
  exact ⟨rfl, rfl, hs.1⟩

/-- Witness for C7: a first run that exits through a quit call returns
`Ok`; the second run on the resulting state fails with the re-entrancy
error. -/
theorem reentrant_run_fails_witness :
    (run_event_loop (run_event_loop
        { initialBackendState with window := some 1 }
        [{ hasActiveAnimations := false, durationUntilNextTimerUpdate := none,
           renderOk := true, dispatchOk := true,
           quitDuringDispatch := true }]).state []).outcome =
      RunOutcome.err
        "Re-entering the linuxkms event loop is currently not supported" :=
  (reentrant_run_fails { initialBackendState with window := some 1 } 1
    [{ hasActiveAnimations := false, durationUntilNextTimerUpdate := none,
       renderOk := true, dispatchOk := true, quitDuringDispatch := true }]
    [] rfl rfl).1

/-- C10: a successful `create_window_adapter` call overwrites the single
cached adapter slot, so after two successful calls the slot holds the
second adapter, and a subsequent `run_event_loop` renders only that most
recent adapter — the first adapter never appears in a rendered event. -/
theorem adapter_cache_overwrite (s : SystemState) (e1 e2 : CreateEnv)
    (sched : List IterEnv) (h1 : createEnvOk e1 = true)
    (h2 : createEnvOk e2 = true) :
    ((create_window_adapter ((create_window_adapter s e1).1) e2).1).window =
      some e2.adapterId ∧
    (∀ x, LoopEvent.rendered x ∈
        (run_event_loop
          ((create_window_adapter ((create_window_adapter s e1).1) e2).1)
          sched).trace →
      x = e2.adapterId) := by
  rw [create_window_adapter_ok s e1 h1]
  dsimp only
  rw [create_window_adapter_ok _ e2 h2]
  dsimp only
  refine ⟨rfl, ?_⟩
  intro x hx
  exact run_event_loop_rendered _ e2.adapterId sched rfl x hx

/-- Witness for C10: after creating adapter 1 and then adapter 2, the
cached slot holds adapter 2. -/
theorem adapter_cache_overwrite_witness :
    ((create_window_adapter
        ((create_window_adapter initialBackendState
          { deviceEnv := { openResult := .ok 4, getflResult := .ok 2048,
                           setflResult := .ok () },
            factoryOk := true, adapterNewOk := true, adapterId := 1 }).1)
        { deviceEnv := { openResult := .ok 5, getflResult := .ok 0,
                         setflResult := .ok () },
          factoryOk := true, adapterNewOk := true, adapterId := 2 }).1).window =
      some 2 :=
  (adapter_cache_overwrite initialBackendState
    { deviceEnv := { openResult := .ok 4, getflResult := .ok 2048,
                     setflResult := .ok () },
      factoryOk := true, adapterNewOk := true, adapterId := 1 }
    { deviceEnv := { openResult := .ok 5, getflResult := .ok 0,
                     setflResult := .ok () },
      factoryOk := true, adapterNewOk := true, adapterId := 2 }
    [] rfl rfl).1

/-- Witness for C2: with active animations the timeout is 16 ms even when
the adapter's own timer deadline is 500 ms; without animations the 500 ms
deadline is used. -/
theorem next_timeout_animation_bound_witness :
    next_timeout true (some 500) = some 16 ∧
    next_timeout false (some 500) = some 500 :=
  ⟨((next_timeout_animation_bound true (some 500)).1 rfl).1,
   (next_timeout_animation_bound false (some 500)).2.1 rfl⟩

end CalloopBackend

